import Mathlib

/-!
Shallow embedding of `backend/app/utils/s3_utils.py` (repository rexdotsh/pondera).

The file under verification is a singleton wrapper (`S3Client`) around the boto3
S3 SDK: `__new__`, `upload_file`, `delete_file`, `list_files_without_urls`,
`list_files`, `get_file_url`.

Modelling choices:
- Process state (`World`) carries the singleton slot (`S3Client._instance`),
  a counter distinguishing successive `boto3.client` constructions, the state
  of the remote storage service, a fault schedule for injecting `ClientError`
  responses, the trace of network requests issued, and the log.
- The remote S3 service is modelled as a single bucket holding an ordered list
  of objects.  `put_object` overwrites by key, `delete_object` removes the key
  if present and succeeds either way (S3 `DeleteObject` semantics),
  `list_objects_v2` returns one page of at most `page_size` objects matching
  the prefix, omitting `Contents` when the page is empty, and
  `generate_presigned_url` deterministically renders a URL from bucket, key
  and expiry.  Timestamps are carried as ISO strings, so Python's
  `.isoformat()` is the identity in the model.
- Exceptions are `Except`: `ValueError` for the constructor, `ClientError`
  for the storage operations.  Fault injection: `faults[n]`, when set, makes
  the `n`-th network call of the process raise that `ClientError`.
-/

namespace Pondera

/-- The configuration values read by `__new__` (`config.Config`). -/
structure AppConfig where
  S3_ENDPOINT : String
  S3_ACCESS_KEY : String
  S3_SECRET_KEY : String
  S3_REGION : String
  S3_BUCKET : String
deriving DecidableEq, Repr

/-- Model of a `boto3.client("s3", **s3_config)` handle: the configuration it
was built from, plus a serial number distinguishing distinct constructions. -/
structure BotoClient where
  clientId : Nat
  endpoint_url : String
  aws_access_key_id : String
  aws_secret_access_key : String
  region_name : String
deriving DecidableEq, Repr

/-- An `S3Client` instance: its `s3` SDK handle and its `bucket_name`. -/
structure Instance where
  s3 : BotoClient
  bucket_name : String
deriving DecidableEq, Repr

/-- Model of `botocore.exceptions.ClientError`. -/
structure ClientError where
  code : String
  message : String
deriving DecidableEq, Repr

/-- Model of Python `str(e)` for a `ClientError`. -/
def ClientError.str (e : ClientError) : String :=
  e.code ++ ": " ++ e.message

/-- Model of `ValueError`. -/
structure ValueError where
  message : String
deriving DecidableEq, Repr

/-- An object stored in the bucket (`Key`, `Size`, `LastModified`). -/
structure StoredObject where
  key : String
  size : Nat
  last_modified : String
deriving DecidableEq, Repr

/-- State of the remote storage service: the configured bucket's objects in
listing order, recorded content types, the service clock, and the maximum
number of keys returned per listing page (S3 `MaxKeys`). -/
structure S3Service where
  objects : List StoredObject
  contentTypes : List (String × String)
  now : String
  page_size : Nat
deriving DecidableEq, Repr

/-- A network request issued to the storage service. -/
inductive S3Call where
  | putObject (bucket key : String) (body : List Nat) (contentType : String)
  | deleteObject (bucket key : String)
  | listObjectsV2 (bucket pfx : String) (continuationToken : Option String)
  | presign (op bucket key : String) (expiresIn : Nat)
deriving DecidableEq, Repr

/-- Log severities used by the wrapper (`logger.info` / `logger.error`). -/
inductive LogLevel where
  | info
  | error
deriving DecidableEq, Repr

/-- One log line. -/
structure LogEntry where
  level : LogLevel
  msg : String
deriving DecidableEq, Repr

/-- Full process + environment state threaded through the embedding. -/
structure World where
  inst : Option Instance
  nextClientId : Nat
  svc : S3Service
  faults : List (Option ClientError)
  trace : List S3Call
  log : List LogEntry
deriving DecidableEq, Repr

/-- `logger.info(m)`. -/
def logInfo (w : World) (m : String) : World :=
  { w with log := w.log ++ [LogEntry.mk LogLevel.info m] }

/-- `logger.error(m)`. -/
def logError (w : World) (m : String) : World :=
  { w with log := w.log ++ [LogEntry.mk LogLevel.error m] }

/-- Issue one network request: the request is appended to the trace; if the
fault schedule marks this call, the service answers with that `ClientError`,
otherwise `ok` computes the response and the successor service state. -/
def callService {α : Type} (c : S3Call) (ok : S3Service → α × S3Service)
    (w : World) : Except ClientError α × World :=
  match w.faults.getD w.trace.length none with
  | some e => (Except.error e, { w with trace := w.trace ++ [c] })
  | none =>
      let r := ok w.svc
      (Except.ok r.1, { w with svc := r.2, trace := w.trace ++ [c] })

/-- Objects of the bucket whose key starts with the prefix, in listing order.
Starts-with is phrased on the character lists so that concrete instances
evaluate by `decide`. -/
def S3Service.matching (svc : S3Service) (pfx : String) : List StoredObject :=
  svc.objects.filter (fun o => pfx.data.isPrefixOf o.key.data)

/-- A `ListObjectsV2` response: `Contents` is absent (`none`) when the page is
empty; `IsTruncated`/`NextContinuationToken` report remaining pages. -/
structure ListResp where
  contents : Option (List StoredObject)
  isTruncated : Bool
  nextToken : Option String
deriving DecidableEq, Repr

/-- Service semantics of `ListObjectsV2`: one page of at most `page_size`
matching objects, starting at the position encoded by the continuation
token (absent token = first page). -/
def S3Service.list_objects_v2 (svc : S3Service) (pfx : String)
    (tok : Option String) : ListResp :=
  let ms := svc.matching pfx
  let start := match tok with
    | none => 0
    | some t => (t.toNat?).getD 0
  let page := (ms.drop start).take svc.page_size
  { contents := if page = [] then none else some page
    isTruncated := decide (start + svc.page_size < ms.length)
    nextToken :=
      if start + svc.page_size < ms.length then
        some (toString (start + svc.page_size))
      else none }

/-- Service semantics of `PutObject`: overwrite the key with the new body and
content type, stamped with the service clock. -/
def S3Service.put_object (svc : S3Service) (key : String) (body : List Nat)
    (ct : String) : S3Service :=
  { svc with
    objects := svc.objects.filter (fun o => o.key != key) ++
      [StoredObject.mk key body.length svc.now]
    contentTypes := svc.contentTypes.filter (fun p => p.1 != key) ++ [(key, ct)] }

/-- Service semantics of `DeleteObject`: remove the key if present; the
response is the same whether or not the key existed. -/
def S3Service.delete_object (svc : S3Service) (key : String) : S3Service :=
  { svc with
    objects := svc.objects.filter (fun o => o.key != key)
    contentTypes := svc.contentTypes.filter (fun p => p.1 != key) }

/-- Deterministic rendering of a presigned URL from bucket, key and expiry. -/
def presignedURL (bucket key : String) (expiresIn : Nat) : String :=
  "https://s3.example/" ++ bucket ++ "/" ++ key ++ "?X-Amz-Expires=" ++
    toString expiresIn

/-- `S3Client.__new__`: if the singleton slot is empty, build the boto3 client
from configuration, store the instance in the slot, then validate the bucket
name (raising `ValueError` when it is empty); otherwise return the cached
instance.  Mirrors the source line by line, including that the slot is filled
before the bucket-name check. -/
def S3Client.new (cfg : AppConfig) (w : World) :
    Except ValueError Instance × World :=
  match w.inst with
  | some i => (Except.ok i, w)
  | none =>
      let s3 : BotoClient :=
        { clientId := w.nextClientId
          endpoint_url := cfg.S3_ENDPOINT
          aws_access_key_id := cfg.S3_ACCESS_KEY
          aws_secret_access_key := cfg.S3_SECRET_KEY
          region_name := cfg.S3_REGION }
      let i : Instance := { s3 := s3, bucket_name := cfg.S3_BUCKET }
      let w1 : World := { w with inst := some i, nextClientId := w.nextClientId + 1 }
      if i.bucket_name = "" then
        (Except.error (ValueError.mk "AWS_BUCKET_NAME environment variable is required"),
          logError w1 "AWS_BUCKET_NAME environment variable is required")
      else
        (Except.ok i, logInfo w1 ("Connected to S3 bucket: " ++ i.bucket_name))

/-- `S3Client.get_file_url(file_key, expires_in)`: presign a `get_object` URL,
log, and return it; on `ClientError` log at error severity and re-raise. -/
def S3Client.get_file_url (inst : Instance) (file_key : String)
    (expires_in : Nat) (w : World) : Except ClientError String × World :=
  match callService (S3Call.presign "get_object" inst.bucket_name file_key expires_in)
      (fun svc => (presignedURL inst.bucket_name file_key expires_in, svc)) w with
  | (Except.ok url, w1) =>
      (Except.ok url, logInfo w1 ("Generated presigned URL for file: " ++ file_key))
  | (Except.error e, w1) =>
      (Except.error e, logError w1 ("Error generating presigned URL: " ++ ClientError.str e))

/-- The Python default of `expires_in` (6 hours). -/
def defaultExpiresIn : Nat := 21600

/-- `get_file_url` called with `expires_in` omitted, as `upload_file` and
`list_files` do. -/
def S3Client.get_file_url_default (inst : Instance) (file_key : String)
    (w : World) : Except ClientError String × World :=
  S3Client.get_file_url inst file_key defaultExpiresIn w

/-- `S3Client.upload_file(file_data, file_key, content_type)`: `put_object`,
log, then return `self.get_file_url(file_key)`; a `ClientError` from either
call inside the `try` is logged and re-raised. -/
def S3Client.upload_file (inst : Instance) (file_data : List Nat)
    (file_key content_type : String) (w : World) :
    Except ClientError String × World :=
  match callService (S3Call.putObject inst.bucket_name file_key file_data content_type)
      (fun svc => ((), svc.put_object file_key file_data content_type)) w with
  | (Except.error e, w1) =>
      (Except.error e, logError w1 ("Error uploading file to S3: " ++ ClientError.str e))
  | (Except.ok _, w1) =>
      let w2 := logInfo w1 ("Uploaded file to S3: " ++ file_key)
      match S3Client.get_file_url_default inst file_key w2 with
      | (Except.ok url, w3) => (Except.ok url, w3)
      | (Except.error e, w3) =>
          (Except.error e, logError w3 ("Error uploading file to S3: " ++ ClientError.str e))

/-- `S3Client.delete_file(file_key)`: `delete_object` and log; on
`ClientError` log at error severity and re-raise. -/
def S3Client.delete_file (inst : Instance) (file_key : String) (w : World) :
    Except ClientError Unit × World :=
  match callService (S3Call.deleteObject inst.bucket_name file_key)
      (fun svc => ((), svc.delete_object file_key)) w with
  | (Except.ok _, w1) =>
      (Except.ok (), logInfo w1 ("Deleted file from S3: " ++ file_key))
  | (Except.error e, w1) =>
      (Except.error e, logError w1 ("Error deleting file from S3: " ++ ClientError.str e))

/-- The dictionary built per listed object: `key`, `size`,
`last_modified.isoformat()` (identity here), and no `url` field yet. -/
structure FileRecord where
  key : String
  size : Nat
  last_modified : String
  url : Option String
deriving DecidableEq, Repr

/-- The record `list_files_without_urls` builds from one listed object. -/
def recordOf (o : StoredObject) : FileRecord :=
  { key := o.key, size := o.size, last_modified := o.last_modified, url := none }

/-- `S3Client.list_files_without_urls(prefix)`: one `list_objects_v2` request
with no continuation token; build records from `Contents` when present,
return `[]` otherwise; on `ClientError` log and re-raise. -/
def S3Client.list_files_without_urls (inst : Instance) (pfx : String)
    (w : World) : Except ClientError (List FileRecord) × World :=
  match callService (S3Call.listObjectsV2 inst.bucket_name pfx none)
      (fun svc => (svc.list_objects_v2 pfx none, svc)) w with
  | (Except.error e, w1) =>
      (Except.error e, logError w1 ("Error listing files in S3: " ++ ClientError.str e))
  | (Except.ok resp, w1) =>
      let files := match resp.contents with
        | none => []
        | some objs => objs.map recordOf
      (Except.ok files, w1)

/-- The `for file in files: file["url"] = self.get_file_url(file["key"])` loop
of `list_files`; a `ClientError` raised by `get_file_url` propagates. -/
def addUrls (inst : Instance) :
    List FileRecord → World → Except ClientError (List FileRecord) × World
  | [], w => (Except.ok [], w)
  | f :: fs, w =>
      match S3Client.get_file_url_default inst f.key w with
      | (Except.error e, w1) => (Except.error e, w1)
      | (Except.ok u, w1) =>
          match addUrls inst fs w1 with
          | (Except.error e, w2) => (Except.error e, w2)
          | (Except.ok rest, w2) => (Except.ok ({ f with url := some u } :: rest), w2)

/-- `S3Client.list_files(prefix)`: the records of `list_files_without_urls`,
each decorated with a presigned URL. -/
def S3Client.list_files (inst : Instance) (pfx : String) (w : World) :
    Except ClientError (List FileRecord) × World :=
  match S3Client.list_files_without_urls inst pfx w with
  | (Except.error e, w1) => (Except.error e, w1)
  | (Except.ok files, w1) => addUrls inst files w1

/-! ## Helper lemmas -/

/-- A construction that finds the singleton slot filled returns the cached
instance and changes nothing. -/
theorem new_inst_some (cfg : AppConfig) (w : World) (i : Instance)
    (h : w.inst = some i) : S3Client.new cfg w = (Except.ok i, w) := by
  simp [S3Client.new, h]

/-- A construction that returns an instance leaves that instance in the
singleton slot. -/
theorem new_sets_inst (cfg : AppConfig) (w : World) (i : Instance)
    (h : (S3Client.new cfg w).1 = Except.ok i) :
    ((S3Client.new cfg w).2).inst = some i := by
  cases hw : w.inst with
  | some j =>
      simp [S3Client.new, hw] at h ⊢
      exact h
  | none =>
      by_cases hb : cfg.S3_BUCKET = ""
      · simp [S3Client.new, hw, hb, logError] at h
      · simp [S3Client.new, hw, hb, logInfo] at h ⊢
        exact h

/-- Fault-free `get_file_url`: returns the presigned URL, records exactly the
presign request, and logs one info line. -/
theorem get_file_url_ok (inst : Instance) (k : String) (n : Nat) (w : World)
    (h : w.faults = []) :
    S3Client.get_file_url inst k n w =
      (Except.ok (presignedURL inst.bucket_name k n),
        { w with
          trace := w.trace ++ [S3Call.presign "get_object" inst.bucket_name k n]
          log := w.log ++
            [LogEntry.mk LogLevel.info ("Generated presigned URL for file: " ++ k)] }) := by
  simp [S3Client.get_file_url, callService, logInfo, h]

/-- Fault-free URL-decoration loop: decorates every record with its presigned
URL, issuing one presign request per record. -/
theorem addUrls_spec (inst : Instance) (fs : List FileRecord) (w : World)
    (h : w.faults = []) :
    addUrls inst fs w =
      (Except.ok (fs.map (fun f =>
          { f with url := some (presignedURL inst.bucket_name f.key defaultExpiresIn) })),
        { w with
          trace := w.trace ++ fs.map (fun f =>
            S3Call.presign "get_object" inst.bucket_name f.key defaultExpiresIn)
          log := w.log ++ fs.map (fun f =>
            LogEntry.mk LogLevel.info ("Generated presigned URL for file: " ++ f.key)) }) := by
  induction fs generalizing w with
  | nil => simp [addUrls]
  | cons f fs ih =>
      have h1 := get_file_url_ok inst f.key defaultExpiresIn w h
      simp only [addUrls, S3Client.get_file_url_default, h1]
      rw [ih _ (by simp [h])]
      simp [List.append_assoc]

/-- Fault-free `list_files_without_urls`: returns the records of the first
listing page and records exactly one listing request with no token. -/
theorem lfwu_ok (inst : Instance) (pfx : String) (w : World)
    (h : w.faults = []) :
    S3Client.list_files_without_urls inst pfx w =
      (Except.ok (((w.svc.matching pfx).take w.svc.page_size).map recordOf),
        { w with trace := w.trace ++ [S3Call.listObjectsV2 inst.bucket_name pfx none] }) := by
  by_cases hp : (w.svc.matching pfx).take w.svc.page_size = []
  · simp [S3Client.list_files_without_urls, callService, S3Service.list_objects_v2, h, hp]
  · simp [S3Client.list_files_without_urls, callService, S3Service.list_objects_v2, h, hp]

/-! ## Concrete fixtures for witnesses and counterexample evaluation -/

/-- A well-formed configuration. -/
def cfg0 : AppConfig :=
  { S3_ENDPOINT := "http://localhost:9000", S3_ACCESS_KEY := "ak"
    S3_SECRET_KEY := "sk", S3_REGION := "us-east-1", S3_BUCKET := "bucket" }

/-- The same configuration with the bucket name missing. -/
def cfgEmpty : AppConfig := { cfg0 with S3_BUCKET := "" }

/-- A small service state: two objects under prefix `a/`, one under `b/`. -/
def svc0 : S3Service :=
  { objects :=
      [StoredObject.mk "a/x" 3 "2024-01-01T00:00:00",
       StoredObject.mk "a/y" 5 "2024-01-02T00:00:00",
       StoredObject.mk "b/z" 7 "2024-01-03T00:00:00"]
    contentTypes := [], now := "2024-06-01T00:00:00", page_size := 1000 }

/-- A fresh fault-free process state. -/
def w0 : World :=
  { inst := none, nextClientId := 0, svc := svc0, faults := [], trace := [], log := [] }

/-- The instance the first successful construction under `cfg0` produces. -/
def inst0 : Instance :=
  { s3 := { clientId := 0, endpoint_url := "http://localhost:9000"
            aws_access_key_id := "ak", aws_secret_access_key := "sk"
            region_name := "us-east-1" }
    bucket_name := "bucket" }

/-- The misconfigured instance cached by a failed construction under `cfgEmpty`. -/
def instEmpty : Instance := { s3 := inst0.s3, bucket_name := "" }

/-- A sample service error. -/
def e0 : ClientError := { code := "AccessDenied", message := "denied" }

/-- A process state whose next network call fails with `e0`. -/
def wFault : World := { w0 with faults := [some e0] }

/-! ## Claims -/

/-- C1: constructing `S3Client` twice in one process yields the same shared
handle: if a construction returns instance `i`, any later construction
returns the very same `i` and leaves the process state untouched — the SDK
client and bucket name are initialized only on the first construction. -/
theorem construct_twice_same_handle (cfg cfg2 : AppConfig) (w : World)
    (i : Instance) (h : (S3Client.new cfg w).1 = Except.ok i) :
    S3Client.new cfg2 ((S3Client.new cfg w).2) = (Except.ok i, (S3Client.new cfg w).2) :=
  new_inst_some cfg2 _ i (new_sets_inst cfg w i h)

/-- C1 witness: at a concrete configuration and fresh process state. -/
theorem construct_twice_same_handle_witness :
    S3Client.new cfg0 ((S3Client.new cfg0 w0).2) = (Except.ok inst0, (S3Client.new cfg0 w0).2) :=
  construct_twice_same_handle cfg0 cfg0 w0 inst0 rfl

/-- C2 counter-evidence: with an empty bucket name the first construction
raises `ValueError`, but it has already cached the instance, so a second
construction returns that instance — whose bucket name is empty — without
raising.  The failure does not prevent subsequent use of the misconfigured
client. -/
theorem misconfigured_singleton_reused :
    (S3Client.new cfgEmpty w0).1 =
      Except.error (ValueError.mk "AWS_BUCKET_NAME environment variable is required")
  ∧ (S3Client.new cfgEmpty ((S3Client.new cfgEmpty w0).2)).1 = Except.ok instEmpty
  ∧ instEmpty.bucket_name = "" :=
  ⟨rfl, rfl, rfl⟩

/-- C3: a construction with an empty bucket name, at a fresh process state,
raises `ValueError` and issues no network request at all — in particular no
put, delete, list, or presign call precedes the failure. -/
theorem construct_empty_bucket_no_network (cfg : AppConfig) (w : World)
    (hb : cfg.S3_BUCKET = "") (hi : w.inst = none) :
    (S3Client.new cfg w).1 =
      Except.error (ValueError.mk "AWS_BUCKET_NAME environment variable is required")
  ∧ (S3Client.new cfg w).2.trace = w.trace := by
  simp [S3Client.new, hi, hb, logError]

/-- C3 witness: at the concrete empty-bucket configuration. -/
theorem construct_empty_bucket_no_network_witness :
    (S3Client.new cfgEmpty w0).1 =
      Except.error (ValueError.mk "AWS_BUCKET_NAME environment variable is required")
  ∧ (S3Client.new cfgEmpty w0).2.trace = w0.trace :=
  construct_empty_bucket_no_network cfgEmpty w0 rfl rfl

/-- C8: `get_file_url` passes exactly the requested `expires_in` as the
expiry of the presign request it issues, and omitting the argument uses the
default of 21600 seconds. -/
theorem get_file_url_expiry (inst : Instance) (k : String) (n : Nat) (w : World) :
    (S3Client.get_file_url inst k n w).2.trace =
      w.trace ++ [S3Call.presign "get_object" inst.bucket_name k n]
  ∧ S3Client.get_file_url_default inst k w = S3Client.get_file_url inst k 21600 w := by
  constructor
  · unfold S3Client.get_file_url callService
    cases hf : w.faults.getD w.trace.length none <;> simp [hf, logInfo, logError]
  · rfl

/-- Fault-free `upload_file`: stores the object, issues exactly the put and
presign requests, and returns the presigned URL for the key. -/
theorem upload_file_ok (inst : Instance) (data : List Nat) (key ct : String)
    (w : World) (h : w.faults = []) :
    S3Client.upload_file inst data key ct w =
      (Except.ok (presignedURL inst.bucket_name key defaultExpiresIn),
        { w with
          svc := w.svc.put_object key data ct
          trace := w.trace ++ [S3Call.putObject inst.bucket_name key data ct,
            S3Call.presign "get_object" inst.bucket_name key defaultExpiresIn]
          log := w.log ++
            [LogEntry.mk LogLevel.info ("Uploaded file to S3: " ++ key),
             LogEntry.mk LogLevel.info ("Generated presigned URL for file: " ++ key)] }) := by
  simp [S3Client.upload_file, S3Client.get_file_url_default, S3Client.get_file_url,
    callService, logInfo, h]

/-- Fault-free `delete_file`: removes the key and issues exactly the delete
request. -/
theorem delete_file_ok (inst : Instance) (key : String) (w : World)
    (h : w.faults = []) :
    S3Client.delete_file inst key w =
      (Except.ok (),
        { w with
          svc := w.svc.delete_object key
          trace := w.trace ++ [S3Call.deleteObject inst.bucket_name key]
          log := w.log ++ [LogEntry.mk LogLevel.info ("Deleted file from S3: " ++ key)] }) := by
  simp [S3Client.delete_file, callService, logInfo, h]

/-- C4: `list_files` returns exactly the records of `list_files_without_urls`,
each decorated with a `url` field equal to the URL `get_file_url` yields for
that record's key; every `list_files_without_urls` record carries no `url`
field. -/
theorem list_files_decorates (inst : Instance) (pfx : String) (w : World)
    (h : w.faults = []) :
    ∃ files,
      (S3Client.list_files_without_urls inst pfx w).1 = Except.ok files
    ∧ (∀ f ∈ files, f.url = none)
    ∧ (S3Client.list_files inst pfx w).1 =
        Except.ok (files.map (fun f =>
          { f with url := some (presignedURL inst.bucket_name f.key defaultExpiresIn) }))
    ∧ ∀ f ∈ files, ∀ w2 : World, w2.faults = [] →
        (S3Client.get_file_url_default inst f.key w2).1 =
          Except.ok (presignedURL inst.bucket_name f.key defaultExpiresIn) := by
  refine ⟨((w.svc.matching pfx).take w.svc.page_size).map recordOf, ?_, ?_, ?_, ?_⟩
  · rw [lfwu_ok inst pfx w h]
  · intro f hf
    rw [List.mem_map] at hf
    obtain ⟨o, ho, rfl⟩ := hf
    rfl
  · have ha := addUrls_spec inst (((w.svc.matching pfx).take w.svc.page_size).map recordOf)
      { w with trace := w.trace ++ [S3Call.listObjectsV2 inst.bucket_name pfx none] }
      (by simp [h])
    simp only [S3Client.list_files, lfwu_ok inst pfx w h]
    rw [ha]
  · intro f hf w2 h2
    rw [S3Client.get_file_url_default, get_file_url_ok inst f.key defaultExpiresIn w2 h2]

/-- C4 witness: at a concrete instance, prefix and fault-free state. -/
theorem list_files_decorates_witness :
    ∃ files,
      (S3Client.list_files_without_urls inst0 "a/" w0).1 = Except.ok files
    ∧ (∀ f ∈ files, f.url = none)
    ∧ (S3Client.list_files inst0 "a/" w0).1 =
        Except.ok (files.map (fun f =>
          { f with url := some (presignedURL inst0.bucket_name f.key defaultExpiresIn) }))
    ∧ ∀ f ∈ files, ∀ w2 : World, w2.faults = [] →
        (S3Client.get_file_url_default inst0 f.key w2).1 =
          Except.ok (presignedURL inst0.bucket_name f.key defaultExpiresIn) :=
  list_files_decorates inst0 "a/" w0 rfl

/-- C5: a successful `upload_file` stores the object in the configured bucket
under the key with the given content type, and returns exactly the URL that
`get_file_url` yields for that key at the default expiry. -/
theorem upload_returns_url (inst : Instance) (data : List Nat) (key ct : String)
    (w : World) (h : w.faults = []) :
    (S3Client.upload_file inst data key ct w).1 =
      Except.ok (presignedURL inst.bucket_name key defaultExpiresIn)
  ∧ (S3Client.get_file_url_default inst key w).1 =
      Except.ok (presignedURL inst.bucket_name key defaultExpiresIn)
  ∧ (S3Client.upload_file inst data key ct w).2.svc = w.svc.put_object key data ct
  ∧ StoredObject.mk key data.length w.svc.now ∈
      (S3Client.upload_file inst data key ct w).2.svc.objects
  ∧ (key, ct) ∈ (S3Client.upload_file inst data key ct w).2.svc.contentTypes
  ∧ (S3Client.upload_file inst data key ct w).2.trace =
      w.trace ++ [S3Call.putObject inst.bucket_name key data ct,
        S3Call.presign "get_object" inst.bucket_name key defaultExpiresIn] := by
  rw [upload_file_ok inst data key ct w h]
  refine ⟨rfl, ?_, rfl, ?_, ?_, rfl⟩
  · rw [S3Client.get_file_url_default, get_file_url_ok inst key defaultExpiresIn w h]
  · simp [S3Service.put_object]
  · simp [S3Service.put_object]

/-- C5 witness: at a concrete upload. -/
theorem upload_returns_url_witness :
    (S3Client.upload_file inst0 [1, 2, 3, 4] "a/new" "text/plain" w0).1 =
      Except.ok (presignedURL inst0.bucket_name "a/new" defaultExpiresIn)
  ∧ (S3Client.get_file_url_default inst0 "a/new" w0).1 =
      Except.ok (presignedURL inst0.bucket_name "a/new" defaultExpiresIn)
  ∧ (S3Client.upload_file inst0 [1, 2, 3, 4] "a/new" "text/plain" w0).2.svc =
      w0.svc.put_object "a/new" [1, 2, 3, 4] "text/plain"
  ∧ StoredObject.mk "a/new" ([1, 2, 3, 4] : List Nat).length w0.svc.now ∈
      (S3Client.upload_file inst0 [1, 2, 3, 4] "a/new" "text/plain" w0).2.svc.objects
  ∧ ("a/new", "text/plain") ∈
      (S3Client.upload_file inst0 [1, 2, 3, 4] "a/new" "text/plain" w0).2.svc.contentTypes
  ∧ (S3Client.upload_file inst0 [1, 2, 3, 4] "a/new" "text/plain" w0).2.trace =
      w0.trace ++ [S3Call.putObject inst0.bucket_name "a/new" [1, 2, 3, 4] "text/plain",
        S3Call.presign "get_object" inst0.bucket_name "a/new" defaultExpiresIn] :=
  upload_returns_url inst0 [1, 2, 3, 4] "a/new" "text/plain" w0 rfl

/-- C6: listing is single-page only: `list_files_without_urls` issues exactly
one `list_objects_v2` request, with no continuation token, and returns the
records of at most one page (`take page_size` of the matching objects);
`list_files` likewise issues that single listing request followed only by
presign requests. -/
theorem listing_single_page (inst : Instance) (pfx : String) (w : World)
    (h : w.faults = []) :
    (S3Client.list_files_without_urls inst pfx w).2.trace =
      w.trace ++ [S3Call.listObjectsV2 inst.bucket_name pfx none]
  ∧ (S3Client.list_files_without_urls inst pfx w).1 =
      Except.ok (((w.svc.matching pfx).take w.svc.page_size).map recordOf)
  ∧ (S3Client.list_files inst pfx w).2.trace =
      w.trace ++ S3Call.listObjectsV2 inst.bucket_name pfx none ::
        ((w.svc.matching pfx).take w.svc.page_size).map (fun o =>
          S3Call.presign "get_object" inst.bucket_name o.key defaultExpiresIn) := by
  refine ⟨?_, ?_, ?_⟩
  · rw [lfwu_ok inst pfx w h]
  · rw [lfwu_ok inst pfx w h]
  · have ha := addUrls_spec inst (((w.svc.matching pfx).take w.svc.page_size).map recordOf)
      { w with trace := w.trace ++ [S3Call.listObjectsV2 inst.bucket_name pfx none] }
      (by simp [h])
    simp only [S3Client.list_files, lfwu_ok inst pfx w h]
    rw [ha]
    have hc : ((fun f : FileRecord =>
          S3Call.presign "get_object" inst.bucket_name f.key defaultExpiresIn) ∘ recordOf) =
        (fun o : StoredObject =>
          S3Call.presign "get_object" inst.bucket_name o.key defaultExpiresIn) := by
      funext o
      rfl
    simp [List.map_map, hc]

/-- C6 witness: at a concrete instance, prefix and fault-free state. -/
theorem listing_single_page_witness :
    (S3Client.list_files_without_urls inst0 "a/" w0).2.trace =
      w0.trace ++ [S3Call.listObjectsV2 inst0.bucket_name "a/" none]
  ∧ (S3Client.list_files_without_urls inst0 "a/" w0).1 =
      Except.ok (((w0.svc.matching "a/").take w0.svc.page_size).map recordOf)
  ∧ (S3Client.list_files inst0 "a/" w0).2.trace =
      w0.trace ++ S3Call.listObjectsV2 inst0.bucket_name "a/" none ::
        ((w0.svc.matching "a/").take w0.svc.page_size).map (fun o =>
          S3Call.presign "get_object" inst0.bucket_name o.key defaultExpiresIn) :=
  listing_single_page inst0 "a/" w0 rfl

/-- C7: when the storage service answers an operation with a `ClientError`,
each of `upload_file`, `delete_file`, `list_files_without_urls` and
`get_file_url` logs one error line naming the operation and re-raises that
exact error unchanged — no retry, no recovery, no translation. -/
theorem service_error_reraised (inst : Instance) (data : List Nat)
    (key ct pfx : String) (n : Nat) (w : World) (e : ClientError)
    (h : w.faults.getD w.trace.length none = some e) :
    ((S3Client.upload_file inst data key ct w).1 = Except.error e
      ∧ (S3Client.upload_file inst data key ct w).2.log = w.log ++
          [LogEntry.mk LogLevel.error ("Error uploading file to S3: " ++ ClientError.str e)])
  ∧ ((S3Client.delete_file inst key w).1 = Except.error e
      ∧ (S3Client.delete_file inst key w).2.log = w.log ++
          [LogEntry.mk LogLevel.error ("Error deleting file from S3: " ++ ClientError.str e)])
  ∧ ((S3Client.list_files_without_urls inst pfx w).1 = Except.error e
      ∧ (S3Client.list_files_without_urls inst pfx w).2.log = w.log ++
          [LogEntry.mk LogLevel.error ("Error listing files in S3: " ++ ClientError.str e)])
  ∧ ((S3Client.get_file_url inst key n w).1 = Except.error e
      ∧ (S3Client.get_file_url inst key n w).2.log = w.log ++
          [LogEntry.mk LogLevel.error ("Error generating presigned URL: " ++ ClientError.str e)]) := by
  refine ⟨⟨?_, ?_⟩, ⟨?_, ?_⟩, ⟨?_, ?_⟩, ⟨?_, ?_⟩⟩ <;>
    · simp only [S3Client.upload_file, S3Client.delete_file,
        S3Client.list_files_without_urls, S3Client.get_file_url, callService]
      rw [h] <;> simp [logError]

/-- C7 witness: with a concrete injected service error. -/
theorem service_error_reraised_witness :
    ((S3Client.upload_file inst0 [1] "a/x" "text/plain" wFault).1 = Except.error e0
      ∧ (S3Client.upload_file inst0 [1] "a/x" "text/plain" wFault).2.log = wFault.log ++
          [LogEntry.mk LogLevel.error ("Error uploading file to S3: " ++ ClientError.str e0)])
  ∧ ((S3Client.delete_file inst0 "a/x" wFault).1 = Except.error e0
      ∧ (S3Client.delete_file inst0 "a/x" wFault).2.log = wFault.log ++
          [LogEntry.mk LogLevel.error ("Error deleting file from S3: " ++ ClientError.str e0)])
  ∧ ((S3Client.list_files_without_urls inst0 "a/" wFault).1 = Except.error e0
      ∧ (S3Client.list_files_without_urls inst0 "a/" wFault).2.log = wFault.log ++
          [LogEntry.mk LogLevel.error ("Error listing files in S3: " ++ ClientError.str e0)])
  ∧ ((S3Client.get_file_url inst0 "a/x" 60 wFault).1 = Except.error e0
      ∧ (S3Client.get_file_url inst0 "a/x" 60 wFault).2.log = wFault.log ++
          [LogEntry.mk LogLevel.error ("Error generating presigned URL: " ++ ClientError.str e0)]) :=
  service_error_reraised inst0 [1] "a/x" "text/plain" "a/" 60 wFault e0 rfl

/-- C9: `delete_file` is idempotent for the caller: both a first and a second
delete of the same key return plain success, the second leaves the service
state of the first unchanged, and deleting an absent key succeeds while
touching no object — no distinct not-found signal exists. -/
theorem delete_idempotent (inst : Instance) (key : String) (w : World)
    (h : w.faults = []) :
    (S3Client.delete_file inst key w).1 = Except.ok ()
  ∧ (S3Client.delete_file inst key ((S3Client.delete_file inst key w).2)).1 = Except.ok ()
  ∧ (S3Client.delete_file inst key ((S3Client.delete_file inst key w).2)).2.svc =
      (S3Client.delete_file inst key w).2.svc
  ∧ ((∀ o ∈ w.svc.objects, o.key ≠ key) →
      (S3Client.delete_file inst key w).2.svc.objects = w.svc.objects) := by
  have h1 := delete_file_ok inst key w h
  have h2 := delete_file_ok inst key ((S3Client.delete_file inst key w).2)
    (by rw [h1]; simp [h])
  refine ⟨by rw [h1], by rw [h2], ?_, ?_⟩
  · rw [h2, h1]
    simp [S3Service.delete_object, List.filter_filter]
  · intro habs
    rw [h1]
    simp only [S3Service.delete_object]
    exact List.filter_eq_self.mpr (fun o ho => by simpa using habs o ho)

/-- C9 witness: at a concrete key, both present (`a/x`) and absent (`c/q`)
cases are exercised through the theorem. -/
theorem delete_idempotent_witness :
    ((S3Client.delete_file inst0 "a/x" w0).1 = Except.ok ()
      ∧ (S3Client.delete_file inst0 "a/x" ((S3Client.delete_file inst0 "a/x" w0).2)).1 = Except.ok ()
      ∧ (S3Client.delete_file inst0 "a/x" ((S3Client.delete_file inst0 "a/x" w0).2)).2.svc =
          (S3Client.delete_file inst0 "a/x" w0).2.svc
      ∧ ((∀ o ∈ w0.svc.objects, o.key ≠ "a/x") →
          (S3Client.delete_file inst0 "a/x" w0).2.svc.objects = w0.svc.objects))
  ∧ ((∀ o ∈ w0.svc.objects, o.key ≠ "c/q")
      ∧ (S3Client.delete_file inst0 "c/q" w0).2.svc.objects = w0.svc.objects) :=
  ⟨delete_idempotent inst0 "a/x" w0 rfl,
   by decide,
   (delete_idempotent inst0 "c/q" w0 rfl).2.2.2 (by decide)⟩

/-- C10: when the service reports no object matching the prefix (a listing
response with no `Contents`), both listing operations return the empty list
rather than raising. -/
theorem list_empty_result (inst : Instance) (pfx : String) (w : World)
    (h : w.faults = []) (hm : w.svc.matching pfx = []) :
    (S3Client.list_files_without_urls inst pfx w).1 = Except.ok []
  ∧ (S3Client.list_files inst pfx w).1 = Except.ok [] := by
  constructor
  · rw [lfwu_ok inst pfx w h]
    simp [hm]
  · simp [S3Client.list_files, lfwu_ok inst pfx w h, hm, addUrls]

/-- C10 witness: prefix `c/` matches nothing in the concrete service state. -/
theorem list_empty_result_witness :
    (S3Client.list_files_without_urls inst0 "c/" w0).1 = Except.ok []
  ∧ (S3Client.list_files inst0 "c/" w0).1 = Except.ok [] :=
  list_empty_result inst0 "c/" w0 rfl (by decide)

end Pondera
